import Mathlib

/-!
Verification of the LunarCalendar conversion engine (LunarCalendar.py).

The Python source is shallowly embedded below.  Conventions of the embedding:
* Python `int` is modelled by `ℤ` (table entries, which are nonnegative, by `ℕ`);
* Python exceptions (`ValueError`, `IndexError`, `OverflowError`) are modelled by
  the `Py` result monad; the `OutOfRange` *value* returned by `__formatDate` is a
  distinguished success constructor, exactly as in the source;
* Python list indexing (including negative-index wraparound) is `pyGet`;
* `datetime.date` / `datetime.datetime` arithmetic is modelled by proleptic
  Gregorian day numbers (`daysFromCivil` / `civilFromDays`, era 0000-03-01),
  with `datetime.date` construction validating its arguments and date+timedelta
  checking the year range 1..9999, as CPython does;
* the float constant `31556925974.7` ms is modelled exactly as the rational
  31556925974700 µs; the double-precision representation error (< 2 µs over the
  whole supported range) is below every day-granularity boundary used here.

The repository's data file `lunarInfo.csv` is not part of the sources under
verification; everything depending on its contents is modelled from the spec
(see `wfTable` and `synthTable` below).
-/

set_option maxRecDepth 100000

namespace LunarCalendar

/-- Python exceptions that the embedded code can raise. -/
inductive PyExc : Type
  | valueError
  | indexError
  | overflowError
deriving DecidableEq

/-- Result monad for embedded Python code: a value or a raised exception. -/
inductive Py (α : Type) : Type
  | ok (a : α)
  | exc (e : PyExc)
deriving DecidableEq

/-- Monadic bind: exceptions propagate. -/
def Py.bind {α β : Type} : Py α → (α → Py β) → Py β
  | .ok a, f => f a
  | .exc e, _ => .exc e

instance : Monad Py where
  pure := Py.ok
  bind := Py.bind

/-- Python list indexing `l[i]`: negative indices wrap around from the end;
out-of-bounds raises `IndexError`. -/
def pyGet {α : Type} (l : List α) (i : ℤ) : Py α :=
  let j : ℤ := if i < 0 then i + (l.length : ℤ) else i
  if h : 0 ≤ j ∧ j.toNat < l.length then .ok (l.get ⟨j.toNat, h.2⟩) else .exc .indexError

/-- Source `__isLeapYear` (also the Gregorian rule used by `datetime`). -/
def isLeapYear (y : ℤ) : Bool :=
  (y % 4 == 0 && y % 100 != 0) || y % 400 == 0

/-- Number of days of month `m` (1..12) of Gregorian year `y`. -/
def daysInMonth (y m : ℤ) : ℕ :=
  if m = 2 then (if isLeapYear y then 29 else 28)
  else if m = 4 ∨ m = 6 ∨ m = 9 ∨ m = 11 then 30 else 31

/-- Day number of a Gregorian civil date, counted from 0000-03-01 (era style). -/
def daysFromCivil (y m d : ℕ) : ℕ :=
  let yv := if m ≤ 2 then y - 1 else y
  let era := yv / 400
  let yoe := yv % 400
  let mp := (m + 9) % 12
  let doy := (153 * mp + 2) / 5 + d - 1
  let doe := yoe * 365 + yoe / 4 - yoe / 100 + doy
  era * 146097 + doe

/-- Inverse of `daysFromCivil`: civil date `(y, m, d)` of a day number. -/
def civilFromDays (z : ℕ) : ℕ × ℕ × ℕ :=
  let era := z / 146097
  let doe := z % 146097
  let yoe := (doe - doe / 1460 + doe / 36524 - doe / 146096) / 365
  let y := yoe + era * 400
  let doy := doe - (365 * yoe + yoe / 4 - yoe / 100)
  let mp := (5 * doy + 2) / 153
  let d := doy - (153 * mp + 2) / 5 + 1
  let m := if mp < 10 then mp + 3 else mp - 9
  (if m ≤ 2 then y + 1 else y, m, d)

/-- Argument validation performed by `datetime.date(y, m, d)`. -/
def validDateB (y m d : ℤ) : Bool :=
  decide (1 ≤ y) && decide (y ≤ 9999) && decide (1 ≤ m) && decide (m ≤ 12) &&
  decide (1 ≤ d) && decide (d ≤ (daysInMonth y m : ℤ))

/-- `datetime.date(y, m, d)` as a day number; invalid dates raise `ValueError`. -/
def dateOrd (y m d : ℤ) : Py ℕ :=
  if validDateB y m d then .ok (daysFromCivil y.toNat m.toNat d.toNat)
  else .exc .valueError

/-- Day number of 0001-01-01 (`datetime.date.min`). -/
def minDateOrd : ℕ := daysFromCivil 1 1 1

/-- Day number of 9999-12-31 (`datetime.date.max`). -/
def maxDateOrd : ℕ := daysFromCivil 9999 12 31

/-- `date + timedelta(days = ...)` result, as a civil date; out of the supported
range 0001-01-01 .. 9999-12-31 raises `OverflowError`, as in CPython. -/
def ordToDate (o : ℤ) : Py (ℕ × ℕ × ℕ) :=
  if (minDateOrd : ℤ) ≤ o ∧ o ≤ (maxDateOrd : ℤ) then .ok (civilFromDays o.toNat)
  else .exc .overflowError

-- Source constants (`LunarCalendar` class attributes).

def minYear : ℤ := 1890
def maxYear : ℤ := 2100

def heavenlyStems : List String :=
  ["甲", "乙", "丙", "丁", "戊", "己", "庚", "辛", "壬", "癸"]

def earthlyBranches : List String :=
  ["子", "丑", "寅", "卯", "辰", "巳", "午", "未", "申", "酉", "戌", "亥"]

def zodiacT : List String :=
  ["鼠", "牛", "虎", "兔", "龍", "蛇", "馬", "羊", "猴", "雞", "狗", "豬"]

def solarTermT : List String :=
  ["小寒", "大寒", "立春", "雨水", "驚蟄", "春分",
   "清明", "穀雨", "立夏", "小滿", "芒種", "夏至",
   "小暑", "大暑", "立秋", "處暑", "白露", "秋分",
   "寒露", "霜降", "立冬", "小雪", "大雪", "冬至"]

def monthCn : List String :=
  ["正", "二", "三", "四", "五", "六", "七", "八", "九", "十", "十一", "十二"]

def dateCn : List String :=
  ["初一", "初二", "初三", "初四", "初五", "初六",
   "初七", "初八", "初九", "初十", "十一", "十二",
   "十三", "十四", "十五", "十六", "十七", "十八",
   "十九", "二十", "廿一", "廿二", "廿三", "廿四",
   "廿五", "廿六", "廿七", "廿八", "廿九", "三十", "卅一"]

def termInfo : List ℕ :=
  [0, 21208, 42467, 63836, 85337, 107014, 128867, 150921,
   173149, 195551, 218072, 240693, 263343, 285989, 308563,
   331033, 353350, 375494, 397447, 419210, 440795, 462224,
   483532, 504758]

-- Embedded source functions.

/-- Source `__formatDayD4`: key `d` + zero-padded (month+1) + zero-padded day. -/
def formatDayD4 (month day : ℤ) : String :=
  let m := month + 1
  let ms := if m < 10 then "0" ++ toString m else toString m
  let ds := if day < 10 then "0" ++ toString day else toString day
  "d" ++ ms ++ ds

/-- Source `__getLunarLeapYear`: leap-month index of a lunar year (entry 0 of
the year's table record). -/
def getLunarLeapYear (info : List (List ℕ)) (year : ℤ) : Py ℕ := do
  let yearData ← pyGet info (year - minYear)
  pyGet yearData 0

/-- Source `__getLunarYearDays` inner loop: bits of `monthData` from bit 15 down
to bit 0 (element `k` is bit `15 - k`). -/
def monthDataArrOf (monthData : ℕ) : List ℕ :=
  (List.range 16).map (fun k => (monthData >>> (15 - k)) &&& 1)

/-- Month lengths and total length of a lunar year (source `__getLunarYearDays`). -/
structure YearDays : Type where
  yearDays : ℕ
  monthDays : List ℕ
deriving DecidableEq

/-- Source `__getLunarYearDays`: decode the month-length bitmask of a lunar year
into 12 (no leap month) or 13 day-counts of 29/30 days, plus their total. -/
def getLunarYearDays (info : List (List ℕ)) (year : ℤ) : Py YearDays := do
  let yearData ← pyGet info (year - minYear)
  let leapMonth ← pyGet yearData 0
  let monthData ← pyGet yearData 3
  let numMonthsInYear := if leapMonth ≠ 0 then 13 else 12
  let monthDays := ((monthDataArrOf monthData).take numMonthsInYear).map
    (fun b => if b = 0 then 29 else 30)
  return ⟨monthDays.sum, monthDays⟩

/-- The `for`/`break` loop of source `__getLunarDateByBetween`: accumulate month
lengths until the running total exceeds `stop`; on break, return the month index
and the total *before* that month.  Without a break, `month` keeps its initial
value 0 and the total is the full sum, exactly as in the source. -/
def walkMonths : List ℕ → ℤ → ℕ → ℤ → ℕ × ℤ
  | [], _, _, acc => (0, acc)
  | md :: rest, stop, i, acc =>
    if acc + (md : ℤ) > stop then (i, acc) else walkMonths rest stop (i + 1) (acc + (md : ℤ))

/-- Source `__getLunarDateByBetween`: lunar date of `year` at day offset
`between` from that lunar year's first day (negative offsets are first
normalised by adding the year length). -/
def getLunarDateByBetween (info : List (List ℕ)) (year between : ℤ) : Py (ℤ × ℕ × ℤ) := do
  let lunarYearDays ← getLunarYearDays info year
  let stop := if between > 0 then between else (lunarYearDays.yearDays : ℤ) + between
  let w := walkMonths lunarYearDays.monthDays stop 0 0
  return (year, w.1, stop - w.2 + 1)

/-- Source `__getDaysBetweenSolar`: signed day difference between two solar
dates given with 0-indexed months (`datetime.date` subtraction). -/
def getDaysBetweenSolar (year month day year1 month1 day1 : ℤ) : Py ℤ := do
  let d0 ← dateOrd year (month + 1) day
  let d1 ← dateOrd year1 (month1 + 1) day1
  return (d1 : ℤ) - (d0 : ℤ)

/-- Source `__getLunarByBetween`: lunar date of a solar date, via the signed
offset from the lunar New Year (`zenMonth`/`zenDay`) of the same solar year. -/
def getLunarByBetween (info : List (List ℕ)) (year month day : ℤ) : Py (ℤ × ℕ × ℤ) := do
  let yearData ← pyGet info (year - minYear)
  let zenMonth ← pyGet yearData 1
  let zenDay ← pyGet yearData 2
  let between ← getDaysBetweenSolar year ((zenMonth : ℤ) - 1) (zenDay : ℤ) year month day
  if between = 0 then return (year, 0, 1)
  else
    let lunarYear := if between > 0 then year else year - 1
    getLunarDateByBetween info lunarYear between

/-- The `for`/`break` loop of source `__getDaysBetweenZheng`: sum of the entries
of `monthDays` whose index `i` (starting at the given counter) satisfies
`i < month`. -/
def sumBeforeMonth : List ℕ → ℤ → ℕ → ℕ
  | [], _, _ => 0
  | md :: rest, month, i =>
    if (i : ℤ) < month then md + sumBeforeMonth rest month (i + 1) else 0

/-- Source `__getDaysBetweenZheng`: 0-indexed day offset of lunar
`year`/`month`(0-indexed)/`day` from that lunar year's first day. -/
def getDaysBetweenZheng (info : List (List ℕ)) (year month day : ℤ) : Py ℤ := do
  let lunarYearDays ← getLunarYearDays info year
  return (sumBeforeMonth lunarYearDays.monthDays month 0 : ℤ) + day - 1

/-- Instant of the fixed term epoch 1890-01-05T16:02:31 UTC, in microseconds
counted from 0000-03-01T00:00:00 UTC. -/
def epochInstantUs : ℤ :=
  (daysFromCivil 1890 1 5 : ℤ) * 86400000000 + ((16 * 3600 + 2 * 60 + 31) * 1000000)

/-- Source `__getTerm`: UTC day-of-month of the `n`-th solar term of year `y`.
The float `31556925974.7` ms is modelled exactly as 31556925974700 µs. -/
def getTerm (y n : ℤ) : Py ℕ := do
  let t ← pyGet termInfo n
  let offsetUs : ℤ := 31556925974700 * (y - 1890) + (t : ℤ) * 60000 * 1000
  let instantUs := epochInstantUs + offsetUs
  return (civilFromDays (instantUs.ediv 86400000000).toNat).2.2

/-- Python `dict` assignment `d[k] = v`: replace in place if the key exists,
otherwise append. -/
def dictInsert (d : List (String × String)) (k v : String) : List (String × String) :=
  if d.any (fun p => p.1 == k) then d.map (fun p => if p.1 == k then (k, v) else p)
  else d ++ [(k, v)]

/-- Source `__getYearTerm`: table of the even-indexed solar terms of a year,
keyed by `formatDayD4` of their (0-indexed month, day-of-month). -/
def getYearTerm (year : ℤ) : Py (List (String × String)) := do
  let st ← (List.range 24).foldlM
    (fun (st : List (String × String) × ℕ) i => do
      let day ← getTerm year (i : ℤ)
      if i % 2 = 0 then
        let month := st.2 + 1
        let name ← pyGet solarTermT (i : ℤ)
        return (dictInsert st.1 (formatDayD4 ((month : ℤ) - 1) (day : ℤ)) name, month)
      else
        return st)
    (([], 0) : List (String × String) × ℕ)
  return st.1

/-- Source `__getYearZodiac`: zodiac animal of a (stem-branch cutover) year. -/
def getYearZodiac (year : ℤ) : Py String :=
  pyGet zodiacT ((year - 1890 + 25) % 12)

/-- Source `__cyclical`: stem-branch name at position `num` of the 60-cycle. -/
def cyclical (num : ℤ) : Py String := do
  let s ← pyGet heavenlyStems (num % 10)
  let b ← pyGet earthlyBranches (num % 12)
  return s ++ b

/-- Source `__getLunarYearName`. -/
def getLunarYearName (year offset : ℤ) : Py String :=
  cyclical (year - 1890 + 25 + offset)

/-- Source `__getLunarMonthName`. -/
def getLunarMonthName (year month offset : ℤ) : Py String :=
  cyclical ((year - 1890) * 12 + month + 12 + offset)

/-- Source `__getLunarDayName`: stem-branch name of a solar day (0-indexed
month), anchored at 1970-01-01 = cycle position 29219 + 18. -/
def getLunarDayName (year month day : ℤ) : Py String := do
  let o ← dateOrd year (month + 1) day
  cyclical ((o : ℤ) + (29219 + 18) - (daysFromCivil 1970 1 1 : ℤ))

/-- Result of source `__formatDate`: either the out-of-range error value
(`error: 100, msg: 'Year out of range'`) or the normalised date with the month
made 0-indexed. -/
inductive FmtResult : Type
  | err (code : ℤ) (msg : String)
  | ok (year month day : ℤ)
deriving DecidableEq

/-- Source `__formatDate` (with all three date components supplied by the
caller; the "default to today" branch is external I/O glue, out of scope).
`minY = some m` models an explicit `_minYear` argument, `none` the default
`minYear + 1` lower validation bound. -/
def formatDate (year month day : ℤ) (minY : Option ℤ) : FmtResult :=
  let month := month - 1
  if year < minY.getD (minYear + 1) ∨ maxYear < year then .err 100 "Year out of range"
  else .ok year month day

/-- Result of `lunarToSolar`: the out-of-range error value or a solar date
(1-indexed month). -/
inductive LTSRes : Type
  | outOfRange (code : ℤ) (msg : String)
  | solar (year month day : ℤ)
deriving DecidableEq

/-- Source `lunarToSolar`.  Note: the source passes *no* `_minYear` to
`__formatDate`, so the validated range is `[minYear + 1, maxYear]`. -/
def lunarToSolar (info : List (List ℕ)) (yearIn monthIn dayIn : ℤ) : Py LTSRes :=
  match formatDate yearIn monthIn dayIn none with
  | .err c msg => .ok (.outOfRange c msg)
  | .ok year month day => do
    let between ← getDaysBetweenZheng info year month day
    let yearData ← pyGet info (year - minYear)
    let zenMonth ← pyGet yearData 1
    let zenDay ← pyGet yearData 2
    let o ← dateOrd year (zenMonth : ℤ) (zenDay : ℤ)
    let offDate ← ordToDate ((o : ℤ) + between)
    return .solar (offDate.1 : ℤ) (offDate.2.1 : ℤ) (offDate.2.2 : ℤ)

/-- Python `int(s[-1])`: the last character of a string as a digit;
empty string raises `IndexError`, a non-digit raises `ValueError`. -/
def intOfLastChar (s : String) : Py ℤ :=
  match s.data.getLast? with
  | none => .exc .indexError
  | some c => if c.isDigit then .ok ((c.toNat - 48 : ℕ) : ℤ) else .exc .valueError

/-- Source `solarToLunar` lines 345-346: the key of the 立春 (start of spring)
entry of the year's term table, parsed by taking only its *last character*. -/
def parseTerm2 (termList : List (String × String)) : Py ℤ := do
  let keys := (termList.filter (fun p => p.2 == "立春")).map Prod.fst
  let k ← pyGet keys 0
  intOfLastChar k

/-- `parseTerm2` applied to the year's term table (the value `term2` that
`solarToLunar` actually uses for the stem-branch year cutover). -/
def term2Of (year : ℤ) : Py ℤ := do
  let termList ← getYearTerm year
  parseTerm2 termList

/-- Source `solarToLunar` lines 349-352: the stem-branch cutover year
(`month` 0-indexed): next year from March on, or from `term2` February on. -/
def ganZhiYearOf (year month day term2 : ℤ) : ℤ :=
  if month > 1 ∨ (month = 1 ∧ day ≥ term2) then year + 1 else year

/-- The success payload of source `solarToLunar`. -/
structure LunarInfo : Type where
  zodiac : String
  ganZhiYear : String
  ganZhiMonth : String
  ganZhiDay : String
  term : Option String
  lunarYear : ℤ
  lunarMonth : ℤ
  lunarDay : ℤ
  lunarMonthName : String
  lunarDayName : String
  lunarLeapMonth : ℕ
deriving DecidableEq

/-- Result of `solarToLunar`: the out-of-range error value or a `LunarInfo`. -/
inductive STLRes : Type
  | outOfRange (code : ℤ) (msg : String)
  | res (r : LunarInfo)
deriving DecidableEq

/-- Source `solarToLunar`.  Note: the source passes `self.__minYear` as
`_minYear` to `__formatDate`, so the validated range is `[minYear, maxYear]`
(its own docstring notwithstanding). -/
def solarToLunar (info : List (List ℕ)) (yearIn monthIn dayIn : ℤ) : Py STLRes :=
  match formatDate yearIn monthIn dayIn (some minYear) with
  | .err c msg => .ok (.outOfRange c msg)
  | .ok year month day => do
    let termList ← getYearTerm year
    let term2 ← parseTerm2 termList
    let firstTerm ← getTerm year (month * 2)
    let ganZhiYear := ganZhiYearOf year month day term2
    let ganZhiMonth := if day ≥ (firstTerm : ℤ) then month + 1 else month
    let lunarDate ← getLunarByBetween info year month day
    let lunarLeapMonth ← getLunarLeapYear info lunarDate.1
    let lunarMonthName ←
      if lunarLeapMonth > 0 ∧ (lunarLeapMonth : ℤ) = (lunarDate.2.1 : ℤ) then do
        let n ← pyGet monthCn ((lunarDate.2.1 : ℤ) - 1)
        pure ("閏" ++ n ++ "月")
      else if lunarLeapMonth > 0 ∧ (lunarLeapMonth : ℤ) < (lunarDate.2.1 : ℤ) then do
        let n ← pyGet monthCn ((lunarDate.2.1 : ℤ) - 1)
        pure (n ++ "月")
      else do
        let n ← pyGet monthCn (lunarDate.2.1 : ℤ)
        pure (n ++ "月")
    let term := (termList.find? (fun p => p.1 == formatDayD4 month day)).map Prod.snd
    let zodiacStr ← getYearZodiac ganZhiYear
    let gzYearName ← getLunarYearName ganZhiYear 0
    let gzMonthName ← getLunarMonthName year ganZhiMonth 0
    let gzDayName ← getLunarDayName year month day
    let ldName ← pyGet dateCn (lunarDate.2.2 - 1)
    return .res
      { zodiac := zodiacStr, ganZhiYear := gzYearName, ganZhiMonth := gzMonthName,
        ganZhiDay := gzDayName, term := term, lunarYear := lunarDate.1,
        lunarMonth := (lunarDate.2.1 : ℤ) + 1, lunarDay := lunarDate.2.2,
        lunarMonthName := lunarMonthName, lunarDayName := ldName,
        lunarLeapMonth := lunarLeapMonth }

-- Spec-modelled table data.

/-- Modelled from the spec: the repository reads its per-year table from
`lunarInfo.csv`, which is not among the sources under verification.  Per spec
§3/§6 a record is `[leapMonthIndex, epochMonth, epochDay, monthLengthBits]`,
one per year of `[minYear, maxYear]` (so 211 records), where `epochMonth`/
`epochDay` are the valid solar calendar month/day of that lunar year's first
day.  `rowCheck` states the per-record well-formedness used below, including
the slack needed so that `date + timedelta` stays inside `datetime`'s range. -/
def rowCheck (y : ℤ) (r : List ℕ) : Bool :=
  r.length == 4 &&
  validDateB y (r.getD 1 0 : ℤ) (r.getD 2 0 : ℤ) &&
  decide (minDateOrd ≤ daysFromCivil y.toNat (r.getD 1 0) (r.getD 2 0)) &&
  decide (daysFromCivil y.toNat (r.getD 1 0) (r.getD 2 0) + 419 ≤ maxDateOrd)

/-- Modelled from the spec: well-formedness of a full table (211 records, one
per year of 1890..2100, each satisfying `rowCheck`). -/
def wfTable (info : List (List ℕ)) : Bool :=
  info.length == 211 &&
  (List.range 211).all (fun i => rowCheck (1890 + (i : ℤ)) (info.getD i []))

/-- Modelled from the spec: generator of a concrete spec-conforming table.
Common lunar years use the alternating 30/29 bitmask 43680 (354 days), leap
years (chosen whenever a common year would push the next epoch before Jan 21)
use leap month 6 with bitmask 43688 (384 days).  `e` is the day-of-year of the
epoch (lunar New Year); consecutive epochs differ by exactly the year length. -/
def synthRows : ℕ → ℕ → ℕ → List (List ℕ)
  | 0, _, _ => []
  | n + 1, y, e =>
    let diy := if isLeapYear (y : ℤ) then 366 else 365
    let zm := if e ≤ 31 then 1 else 2
    let zd := if e ≤ 31 then e else e - 31
    if 21 ≤ e + 354 - diy then
      [0, zm, zd, 43680] :: synthRows n (y + 1) (e + 354 - diy)
    else
      [6, zm, zd, 43688] :: synthRows n (y + 1) (e + 384 - diy)

/-- Modelled from the spec: a concrete 211-row table (years 1890..2100) in the
format of `lunarInfo.csv`, with the 1890 epoch on 1890-01-21. -/
def synthTable : List (List ℕ) := synthRows 211 1890 21

-- Result extractors used by the claim statements.

/-- `solarToLunar` returned a structured success payload. -/
def stlIsRes : Py STLRes → Bool
  | .ok (.res _) => true
  | _ => false

/-- The `(lunarYear, lunarMonth, lunarDay)` fields of a `solarToLunar` success. -/
def stlLunarYMD : Py STLRes → Option (ℤ × ℤ × ℤ)
  | .ok (.res r) => some (r.lunarYear, r.lunarMonth, r.lunarDay)
  | _ => none

/-- The `(lunarMonth, lunarDay)` fields of a `solarToLunar` success. -/
def stlMonthDay : Py STLRes → Option (ℤ × ℤ)
  | .ok (.res r) => some (r.lunarMonth, r.lunarDay)
  | _ => none

/-- The 1-indexed month and day of a `getLunarDateByBetween` result. -/
def ldMonthDay : Py (ℤ × ℕ × ℤ) → Option (ℤ × ℤ)
  | .ok t => some ((t.2.1 : ℤ) + 1, t.2.2)
  | _ => none

/-- `lunarToSolar` returned a solar date (neither error value nor exception). -/
def isSolarOk : Py LTSRes → Bool
  | .ok (.solar _ _ _) => true
  | _ => false

/-- Per-year check for the 立春 cutover value: term index 2 has some day `s`
with `s < 10`, and the value `term2` parsed by `solarToLunar` (last character
of the cached key) equals `s`. -/
def termTwoCheck (k : ℕ) : Bool :=
  match getTerm (1890 + (k : ℤ)) 2 with
  | .ok s => decide (s < 10) && decide (term2Of (1890 + (k : ℤ)) = .ok (s : ℤ))
  | .exc _ => false

/-- Per-year, per-index check that consecutive anchored terms are
lexicographically non-decreasing as (0-indexed month `i / 2`, day). -/
def termPairCheck (k i : ℕ) : Bool :=
  match getTerm (1890 + (k : ℤ)) (i : ℤ), getTerm (1890 + (k : ℤ)) ((i : ℤ) + 1) with
  | .ok a, .ok b => decide (i / 2 < (i + 1) / 2 ∨ (i / 2 = (i + 1) / 2 ∧ a ≤ b))
  | _, _ => false

-- Basic lemmas about the embedding.

lemma ok_bind {α β : Type} (a : α) (f : α → Py β) : (Py.ok a >>= f) = f a := rfl

lemma exc_bind {α β : Type} (e : PyExc) (f : α → Py β) :
    (Py.exc e >>= f : Py β) = Py.exc e := rfl

lemma pure_ok {α : Type} (a : α) : (pure a : Py α) = Py.ok a := rfl

lemma pyGet_ok {α : Type} (l : List α) (i : ℤ) (h0 : 0 ≤ i) (h : i.toNat < l.length) :
    pyGet l i = Py.ok (l.get ⟨i.toNat, h⟩) := by
  have hni : ¬ i < 0 := by omega
  simp only [pyGet, if_neg hni]
  exact dif_pos ⟨h0, h⟩

/-- Structure of any successful `getLunarYearDays` result: the total is the sum
of the month lengths, there are at most 13 months, and each month is 29 or 30
days long. -/
lemma getLunarYearDays_shape (info : List (List ℕ)) (year : ℤ) (r : YearDays)
    (hr : getLunarYearDays info year = .ok r) :
    r.yearDays = r.monthDays.sum ∧ r.monthDays.length ≤ 13 ∧
      ∀ z ∈ r.monthDays, z = 29 ∨ z = 30 := by
  rcases hy : pyGet info (year - minYear) with yearData | e
  · rcases h0 : pyGet yearData 0 with leapMonth | e0
    · rcases h3 : pyGet yearData 3 with monthData | e3
      · simp only [getLunarYearDays, hy, h0, h3, ok_bind, pure_ok] at hr
        obtain rfl := (Py.ok.inj hr).symm
        refine ⟨rfl, ?_, ?_⟩
        · simp only [List.length_map, List.length_take, monthDataArrOf]
          simp only [List.length_map, List.length_range]
          split <;> omega
        · intro z hz
          simp only [List.mem_map] at hz
          obtain ⟨b, _, rfl⟩ := hz
          split <;> simp
      · simp [getLunarYearDays, hy, h0, h3, ok_bind, exc_bind] at hr
    · simp [getLunarYearDays, hy, h0, ok_bind, exc_bind] at hr
  · simp [getLunarYearDays, hy, exc_bind] at hr

/-- If the running total plus the whole remaining list never exceeds `stop`,
the loop of `__getLunarDateByBetween` finishes without a break: month 0 and the
full sum. -/
lemma walkMonths_nobreak (l : List ℕ) (stop : ℤ) (i : ℕ) (acc : ℤ)
    (h : acc + (l.sum : ℤ) ≤ stop) : walkMonths l stop i acc = (0, acc + (l.sum : ℤ)) := by
  induction l generalizing i acc with
  | nil => simp [walkMonths]
  | cons a rest ih =>
    have hs : ((a :: rest).sum : ℤ) = (a : ℤ) + (rest.sum : ℤ) := by push_cast [List.sum_cons]; ring
    have hna : ¬ acc + (a : ℤ) > stop := by
      have : (0 : ℤ) ≤ (rest.sum : ℤ) := Int.ofNat_nonneg _
      rw [hs] at h; omega
    simp only [walkMonths, if_neg hna]
    rw [ih (i + 1) (acc + (a : ℤ)) (by rw [hs] at h; omega), hs]
    exact congrArg _ (by ring)

/-- If `stop` falls inside month `m` of the list, the loop of
`__getLunarDateByBetween` breaks there, with the sum of the months before `m`. -/
lemma walkMonths_break (l : List ℕ) (m x : ℕ) (stop : ℤ) (i : ℕ) (acc : ℤ)
    (hget : l.get? m = some x)
    (hlo : acc + ((l.take m).sum : ℤ) ≤ stop)
    (hhi : stop < acc + ((l.take m).sum : ℤ) + (x : ℤ)) :
    walkMonths l stop i acc = (i + m, acc + ((l.take m).sum : ℤ)) := by
  induction m generalizing l i acc with
  | zero =>
    cases l with
    | nil => simp at hget
    | cons a rest =>
      obtain rfl : a = x := by simpa using hget
      simp only [List.take_zero, List.sum_nil, Nat.cast_zero, add_zero] at hlo hhi
      simp only [walkMonths, if_pos (by omega : acc + (a : ℤ) > stop)]
      simp
  | succ mm ih =>
    cases l with
    | nil => simp at hget
    | cons a rest =>
      have hget2 : rest.get? mm = some x := by simpa using hget
      have hs : ((List.take (mm + 1) (a :: rest)).sum : ℤ)
          = (a : ℤ) + ((List.take mm rest).sum : ℤ) := by
        simp only [List.take_succ_cons, List.sum_cons]; push_cast; ring
      have hna : ¬ acc + (a : ℤ) > stop := by
        have : (0 : ℤ) ≤ ((List.take mm rest).sum : ℤ) := Int.ofNat_nonneg _
        rw [hs] at hlo; omega
      simp only [walkMonths, if_neg hna]
      rw [ih rest (i + 1) (acc + (a : ℤ)) hget2 (by rw [hs] at hlo; omega)
        (by rw [hs] at hhi; omega)]
      rw [hs]
      exact Prod.ext (by omega) (by ring)

/-- The loop of `__getDaysBetweenZheng` sums the first `month - i` entries. -/
lemma sumBeforeMonth_eq (l : List ℕ) (mz : ℤ) (i : ℕ) :
    sumBeforeMonth l mz i = (l.take (mz - i).toNat).sum := by
  induction l generalizing i with
  | nil => simp [sumBeforeMonth]
  | cons a rest ih =>
    by_cases hc : (i : ℤ) < mz
    · have ht : (mz - i).toNat = (mz - ((i + 1 : ℕ) : ℤ)).toNat + 1 := by push_cast; omega
      rw [ht]
      simp only [sumBeforeMonth, if_pos hc, List.take_succ_cons, List.sum_cons]
      rw [ih (i + 1)]
    · have ht : (mz - i).toNat = 0 := by omega
      simp [sumBeforeMonth, hc, ht]

lemma sumBeforeMonth_le_sum (l : List ℕ) (mz : ℤ) (i : ℕ) :
    sumBeforeMonth l mz i ≤ l.sum := by
  induction l generalizing i with
  | nil => simp [sumBeforeMonth]
  | cons a rest ih =>
    simp only [sumBeforeMonth, List.sum_cons]
    split
    · exact Nat.add_le_add_left (ih (i + 1)) a
    · omega

/-- Unfolding equation for `getLunarYearDays` on a successfully fetched record. -/
lemma getLunarYearDays_eq (info : List (List ℕ)) (year : ℤ) (row : List ℕ) (leap bits : ℕ)
    (hrow : pyGet info (year - minYear) = .ok row)
    (h0 : pyGet row 0 = .ok leap) (h3 : pyGet row 3 = .ok bits) :
    getLunarYearDays info year = .ok
      ⟨(((monthDataArrOf bits).take (if leap ≠ 0 then 13 else 12)).map
          (fun b => if b = 0 then 29 else 30)).sum,
        ((monthDataArrOf bits).take (if leap ≠ 0 then 13 else 12)).map
          (fun b => if b = 0 then 29 else 30)⟩ := by
  unfold getLunarYearDays
  rw [hrow]
  show (pyGet row 0 >>= _) = _
  rw [h0]
  show (pyGet row 3 >>= _) = _
  rw [h3]
  rfl

/-- Unfolding equation for `getDaysBetweenZheng`. -/
lemma getDaysBetweenZheng_eq (info : List (List ℕ)) (year month day : ℤ) (r : YearDays)
    (hr : getLunarYearDays info year = .ok r) :
    getDaysBetweenZheng info year month day
      = .ok ((sumBeforeMonth r.monthDays month 0 : ℤ) + day - 1) := by
  unfold getDaysBetweenZheng
  rw [hr]
  rfl

/-- Unfolding equation for `getLunarDateByBetween`. -/
lemma getLunarDateByBetween_eq (info : List (List ℕ)) (year between : ℤ) (r : YearDays)
    (hr : getLunarYearDays info year = .ok r) :
    getLunarDateByBetween info year between = .ok
      (year,
        (walkMonths r.monthDays (if between > 0 then between else (r.yearDays : ℤ) + between) 0 0).1,
        (if between > 0 then between else (r.yearDays : ℤ) + between)
          - (walkMonths r.monthDays
              (if between > 0 then between else (r.yearDays : ℤ) + between) 0 0).2 + 1) := by
  unfold getLunarDateByBetween
  rw [hr]
  rfl

/-- Any successfully decoded lunar year has at most 13 months of at most 30
days, so at most 390 days. -/
lemma monthDays_sum_le (info : List (List ℕ)) (year : ℤ) (r : YearDays)
    (hr : getLunarYearDays info year = .ok r) : r.monthDays.sum ≤ 390 := by
  obtain ⟨-, hlen13, helem⟩ := getLunarYearDays_shape info year r hr
  have h := List.sum_le_card_nsmul r.monthDays 30
    (fun x hx => by rcases helem x hx with h | h <;> omega)
  rw [smul_eq_mul] at h
  omega

/-- Unfolding equation for `lunarToSolar` once `__formatDate` has accepted. -/
lemma lunarToSolar_eq (info : List (List ℕ)) (yi mi di year month day : ℤ)
    (hfmt : formatDate yi mi di none = .ok year month day) :
    lunarToSolar info yi mi di = (do
      let between ← getDaysBetweenZheng info year month day
      let yearData ← pyGet info (year - minYear)
      let zenMonth ← pyGet yearData 1
      let zenDay ← pyGet yearData 2
      let o ← dateOrd year (zenMonth : ℤ) (zenDay : ℤ)
      let offDate ← ordToDate ((o : ℤ) + between)
      return .solar (offDate.1 : ℤ) (offDate.2.1 : ℤ) (offDate.2.2 : ℤ)) := by
  unfold lunarToSolar
  rw [hfmt]

-- Claim theorems.

/-- C3: for every supported year (i.e. whenever the year's table record exists
and has its 4 fields), `__getLunarYearDays` returns a `monthDays` sequence of
length 12 if the record's leap month is 0 and 13 otherwise; entry `k` is 30
exactly when bit `15 - k` of the 16-bit mask (most significant bit first) is
set, and 29 otherwise; and the returned `yearDays` is the sum of the
`monthDays` entries. -/
theorem C3_table_decoding (info : List (List ℕ)) (year : ℤ) (row : List ℕ)
    (hrow : pyGet info (year - minYear) = .ok row) (hlen : row.length = 4) :
    ∃ r : YearDays, getLunarYearDays info year = .ok r ∧
      r.monthDays.length = (if row.getD 0 0 = 0 then 12 else 13) ∧
      (∀ k, k < r.monthDays.length →
        r.monthDays.get? k =
          some (if Nat.testBit (row.getD 3 0) (15 - k) then 30 else 29)) ∧
      r.yearDays = r.monthDays.sum := by
  obtain ⟨a, b, c, dd, rfl⟩ : ∃ a b c dd, row = [a, b, c, dd] := by
    rcases row with _ | ⟨a, _ | ⟨b, _ | ⟨c, _ | ⟨dd, _ | ⟨e, t⟩⟩⟩⟩⟩ <;>
      first
        | exact ⟨a, b, c, dd, rfl⟩
        | simp at hlen
  have h0 : pyGet ([a, b, c, dd] : List ℕ) 0 = Py.ok a := pyGet_ok _ _ (by omega) (by simp)
  have h3 : pyGet ([a, b, c, dd] : List ℕ) 3 = Py.ok dd := pyGet_ok _ _ (by omega) (by simp)
  have g0 : ([a, b, c, dd] : List ℕ).getD 0 0 = a := rfl
  have g3 : ([a, b, c, dd] : List ℕ).getD 3 0 = dd := rfl
  rw [g0, g3]
  refine ⟨_, getLunarYearDays_eq info year [a, b, c, dd] a dd hrow h0 h3, ?_, ?_, rfl⟩
  · simp only [List.length_map, List.length_take, monthDataArrOf, List.length_range]
    by_cases hz : a = 0 <;> simp [hz]
  · intro k hk
    simp only [List.length_map, List.length_take, monthDataArrOf, List.length_range] at hk
    have hklen2 : k < (((monthDataArrOf dd).take
        (if a ≠ 0 then 13 else 12)).map (fun bb => if bb = 0 then 29 else 30)).length := by
      simp only [List.length_map, List.length_take, monthDataArrOf, List.length_range]
      omega
    rw [List.get?_eq_getElem?, List.getElem?_eq_getElem hklen2]
    rw [List.getElem_map, List.getElem_take]
    simp only [monthDataArrOf, List.getElem_map, List.getElem_range]
    rw [Nat.and_one_is_mod, Nat.shiftRight_eq_div_pow, Nat.testBit_to_div_mod]
    rcases Nat.mod_two_eq_zero_or_one (dd / 2 ^ (15 - k)) with h | h <;> simp [h]

/-- C3 witness: year 1890 of the spec-modelled table, record `[6, 1, 21, 43688]`. -/
theorem C3_witness :
    ∃ r : YearDays, getLunarYearDays synthTable 1890 = .ok r ∧
      r.monthDays.length = (if ([6, 1, 21, 43688] : List ℕ).getD 0 0 = 0 then 12 else 13) ∧
      (∀ k, k < r.monthDays.length →
        r.monthDays.get? k =
          some (if Nat.testBit (([6, 1, 21, 43688] : List ℕ).getD 3 0) (15 - k) then 30 else 29)) ∧
      r.yearDays = r.monthDays.sum :=
  C3_table_decoding synthTable 1890 [6, 1, 21, 43688] (by decide) (by decide)

/-- C4: for every lunar year whose record decodes, every 0-indexed month index
`m` with an entry `x` in `monthDays` and every day `1 ≤ d ≤ x`,
`__getDaysBetweenZheng` returns (sum of the months before `m`) + d - 1, and
`__getLunarDateByBetween` maps that offset back to `[year, m, d]`. -/
theorem C4_offset_inverse (info : List (List ℕ)) (year : ℤ) (r : YearDays)
    (hr : getLunarYearDays info year = .ok r)
    (m x : ℕ) (hx : r.monthDays.get? m = some x)
    (d : ℤ) (hd1 : 1 ≤ d) (hd2 : d ≤ (x : ℤ)) :
    getDaysBetweenZheng info year (m : ℤ) d
      = .ok (((r.monthDays.take m).sum : ℤ) + d - 1) ∧
    getLunarDateByBetween info year (((r.monthDays.take m).sum : ℤ) + d - 1)
      = .ok (year, m, d) := by
  obtain ⟨hsum, hlen13, helem⟩ := getLunarYearDays_shape info year r hr
  obtain ⟨hmlt, -⟩ := List.get?_eq_some.mp hx
  constructor
  · rw [getDaysBetweenZheng_eq info year (m : ℤ) d r hr, sumBeforeMonth_eq]
    simp
  · rw [getLunarDateByBetween_eq info year (((r.monthDays.take m).sum : ℤ) + d - 1) r hr]
    by_cases hpos : ((r.monthDays.take m).sum : ℤ) + d - 1 > 0
    · rw [if_pos hpos]
      rw [walkMonths_break r.monthDays m x _ 0 0 hx (by omega) (by omega)]
      rw [Py.ok.injEq, Prod.mk.injEq, Prod.mk.injEq]
      exact ⟨rfl, by omega, by omega⟩
    · have hb0 : ((r.monthDays.take m).sum : ℤ) + d - 1 = 0 := by
        have hnn : (0 : ℤ) ≤ ((r.monthDays.take m).sum : ℤ) := Int.ofNat_nonneg _
        omega
      have hm0 : m = 0 := by
        by_contra hm
        cases hmd : r.monthDays with
        | nil => rw [hmd] at hmlt; simp at hmlt
        | cons a rest =>
          have ha : a = 29 ∨ a = 30 := helem a (by rw [hmd]; exact List.mem_cons_self a rest)
          obtain ⟨mm, rfl⟩ : ∃ mm, m = mm + 1 := ⟨m - 1, by omega⟩
          rw [hmd] at hb0
          simp only [List.take_succ_cons, List.sum_cons] at hb0
          rw [Nat.cast_add] at hb0
          have hnn : (0 : ℤ) ≤ ((rest.take mm).sum : ℤ) := Int.ofNat_nonneg _
          rcases ha with h | h <;> omega
      have hdd : d = 1 := by
        rw [hm0] at hb0
        simp only [List.take_zero, List.sum_nil, Nat.cast_zero] at hb0
        omega
      have hstop : (if ((r.monthDays.take m).sum : ℤ) + d - 1 > 0
            then ((r.monthDays.take m).sum : ℤ) + d - 1
            else (r.yearDays : ℤ) + (((r.monthDays.take m).sum : ℤ) + d - 1))
          = (r.monthDays.sum : ℤ) := by
        rw [if_neg hpos, hb0, hsum]
        ring
      rw [hstop, walkMonths_nobreak r.monthDays _ 0 0 (by omega)]
      rw [Py.ok.injEq, Prod.mk.injEq, Prod.mk.injEq]
      exact ⟨rfl, hm0.symm, by omega⟩

/-- C4 witness: year 1995 of the spec-modelled table, month index 3, day 10. -/
theorem C4_witness :
    getDaysBetweenZheng synthTable 1995 (3 : ℕ) 10
      = .ok ((((⟨354, [30, 29, 30, 29, 30, 29, 30, 29, 30, 29, 30, 29]⟩ : YearDays).monthDays.take 3).sum : ℤ) + 10 - 1) ∧
    getLunarDateByBetween synthTable 1995
        ((((⟨354, [30, 29, 30, 29, 30, 29, 30, 29, 30, 29, 30, 29]⟩ : YearDays).monthDays.take 3).sum : ℤ) + 10 - 1)
      = .ok (1995, (3 : ℕ), 10) :=
  C4_offset_inverse synthTable 1995 ⟨354, [30, 29, 30, 29, 30, 29, 30, 29, 30, 29, 30, 29]⟩
    (by decide) 3 29 (by decide) 10 (by decide) (by decide)

/-- Spec-side formula: the instant `1890-01-05T16:02:31Z` plus
`31556925974.7 * (y - 1890)` milliseconds plus `termInfo[n] * 60000`
milliseconds, expressed in microseconds from the 0000-03-01 era
(`31556925974.7 ms = 315569259747/10 ms = 31556925974700 µs`, exactly). -/
def specTermInstantUs (y n : ℤ) : ℤ :=
  epochInstantUs + 315569259747 * (y - 1890) * 100 + (termInfo.getD n.toNat 0 : ℤ) * 60000000

/-- Spec-side: the UTC calendar day-of-month of an instant given in
microseconds from the 0000-03-01 era. -/
def utcDayOfMonth (us : ℤ) : ℕ :=
  (civilFromDays (us.ediv 86400000000).toNat).2.2

/-- C5: for every supported year and term index `0 ≤ n < 24`, `__getTerm`
returns exactly the UTC day-of-month of the fixed epoch instant
1890-01-05T16:02:31Z advanced by `31556925974.7 * (y - 1890)` ms plus
`termInfo[n] * 60000` ms. -/
theorem C5_term_algorithm (y n : ℤ) (hy1 : 1890 ≤ y) (hy2 : y ≤ 2100)
    (hn0 : 0 ≤ n) (hn : n < 24) :
    getTerm y n = .ok (utcDayOfMonth (specTermInstantUs y n)) := by
  have hlen : n.toNat < termInfo.length := by simp [termInfo]; omega
  have ht : pyGet termInfo n = Py.ok (termInfo.get ⟨n.toNat, hlen⟩) := pyGet_ok _ _ hn0 hlen
  have hgd : termInfo.getD n.toNat 0 = termInfo.get ⟨n.toNat, hlen⟩ := by
    rw [List.getD_eq_get?, List.get?_eq_getElem?, List.getElem?_eq_getElem hlen,
      List.get_eq_getElem, Option.getD_some]
  simp only [getTerm, ht, ok_bind, pure_ok, utcDayOfMonth, specTermInstantUs, hgd, Py.ok.injEq]
  have : epochInstantUs + 315569259747 * (y - 1890) * 100
        + (termInfo.get ⟨n.toNat, hlen⟩ : ℤ) * 60000000
      = epochInstantUs + (31556925974700 * (y - 1890)
        + (termInfo.get ⟨n.toNat, hlen⟩ : ℤ) * 60000 * 1000) := by ring
  rw [this]

/-- C5 witness: year 2000, term index 3 (雨水). -/
theorem C5_witness :
    getTerm 2000 3 = .ok (utcDayOfMonth (specTermInstantUs 2000 3)) :=
  C5_term_algorithm 2000 3 (by decide) (by decide) (by decide) (by decide)

set_option maxRecDepth 1000000 in
set_option maxHeartbeats 4000000 in
lemma termTwoFacts : ∀ k, k < 211 → termTwoCheck k = true := by decide

set_option maxRecDepth 1000000 in
set_option maxHeartbeats 4000000 in
lemma termPairFacts : ∀ k, k < 211 → ∀ i, i < 23 → termPairCheck k i = true := by decide

/-- C7: for every year of the supported range and any (0-indexed) month/day,
the start-of-spring day `s` recovered by `solarToLunar`'s `term2` parse equals
`__getTerm(year, 2)`; the stem-branch cutover year is `year + 1` exactly for
March or later, or February on/after day `s`, and `year` otherwise; and the
zodiac and stem-branch year-name lookups both index their cycle at
`G - 1890 + 25` for that same cutover year `G`. -/
theorem C7_ganzhi_cutover (y m0 d : ℤ) (hy1 : 1890 ≤ y) (hy2 : y ≤ 2100) :
    ∃ s : ℕ, getTerm y 2 = .ok s ∧ term2Of y = .ok (s : ℤ) ∧
      ganZhiYearOf y m0 d (s : ℤ) = (if 2 ≤ m0 ∨ (m0 = 1 ∧ (s : ℤ) ≤ d) then y + 1 else y) ∧
      getYearZodiac (ganZhiYearOf y m0 d (s : ℤ))
        = pyGet zodiacT ((ganZhiYearOf y m0 d (s : ℤ) - 1890 + 25) % 12) ∧
      getLunarYearName (ganZhiYearOf y m0 d (s : ℤ)) 0
        = cyclical (ganZhiYearOf y m0 d (s : ℤ) - 1890 + 25) := by
  have hk : (y - 1890).toNat < 211 := by omega
  have hck := termTwoFacts (y - 1890).toNat hk
  have hyk : (1890 : ℤ) + ((y - 1890).toNat : ℤ) = y := by omega
  unfold termTwoCheck at hck
  rw [hyk] at hck
  cases hg : getTerm y 2 with
  | exc e => rw [hg] at hck; simp at hck
  | ok s =>
    rw [hg] at hck
    rw [Bool.and_eq_true, decide_eq_true_eq, decide_eq_true_eq] at hck
    obtain ⟨hs10, ht2⟩ := hck
    refine ⟨s, rfl, ht2, ?_, rfl, ?_⟩
    · exact if_congr (by omega) rfl rfl
    · show cyclical _ = cyclical _
      exact congrArg cyclical (by ring)

/-- C7 witness: year 2000, internal month 1 (February), day 4 (the
start-of-spring day of 2000). -/
theorem C7_witness :
    ∃ s : ℕ, getTerm 2000 2 = .ok s ∧ term2Of 2000 = .ok (s : ℤ) ∧
      ganZhiYearOf 2000 1 4 (s : ℤ)
        = (if 2 ≤ (1 : ℤ) ∨ ((1 : ℤ) = 1 ∧ (s : ℤ) ≤ 4) then 2000 + 1 else 2000) ∧
      getYearZodiac (ganZhiYearOf 2000 1 4 (s : ℤ))
        = pyGet zodiacT ((ganZhiYearOf 2000 1 4 (s : ℤ) - 1890 + 25) % 12) ∧
      getLunarYearName (ganZhiYearOf 2000 1 4 (s : ℤ)) 0
        = cyclical (ganZhiYearOf 2000 1 4 (s : ℤ) - 1890 + 25) :=
  C7_ganzhi_cutover 2000 1 4 (by decide) (by decide)

/-- C8: for every supported year, the 24 solar terms, each anchored at month
index `i / 2` (the month counter of `__getYearTerm`), form a non-decreasing
sequence of solar dates: consecutive anchored terms compare `≤` in
lexicographic (month, day) order. -/
theorem C8_term_monotonicity (y : ℤ) (hy1 : 1890 ≤ y) (hy2 : y ≤ 2100)
    (i : ℕ) (hi : i + 1 < 24) :
    ∃ a b : ℕ, getTerm y (i : ℤ) = .ok a ∧ getTerm y ((i : ℤ) + 1) = .ok b ∧
      (i / 2 < (i + 1) / 2 ∨ (i / 2 = (i + 1) / 2 ∧ a ≤ b)) := by
  have hk : (y - 1890).toNat < 211 := by omega
  have hck := termPairFacts (y - 1890).toNat hk i (by omega)
  have hyk : (1890 : ℤ) + ((y - 1890).toNat : ℤ) = y := by omega
  unfold termPairCheck at hck
  rw [hyk] at hck
  cases hga : getTerm y (i : ℤ) with
  | exc e => rw [hga] at hck; simp at hck
  | ok a =>
    cases hgb : getTerm y ((i : ℤ) + 1) with
    | exc e => rw [hga, hgb] at hck; simp at hck
    | ok b =>
      rw [hga, hgb, decide_eq_true_eq] at hck
      exact ⟨a, b, rfl, rfl, hck⟩

/-- C8 witness: year 2000, adjacent term indices 4 and 5. -/
theorem C8_witness :
    ∃ a b : ℕ, getTerm 2000 ((4 : ℕ) : ℤ) = .ok a ∧ getTerm 2000 (((4 : ℕ) : ℤ) + 1) = .ok b ∧
      (4 / 2 < (4 + 1) / 2 ∨ (4 / 2 = (4 + 1) / 2 ∧ a ≤ b)) :=
  C8_term_monotonicity 2000 (by decide) (by decide) 4 (by decide)

/-- C10: for every supported year, the cutover day `term2` actually used by
`solarToLunar` (the last character of the cached 立春 key) equals
`__getTerm(year, 2) mod 10`; it equals the true start-of-spring day exactly
when that day is below 10, which indeed holds throughout the range. -/
theorem C10_term2_parse (y : ℤ) (hy1 : 1890 ≤ y) (hy2 : y ≤ 2100) :
    ∃ s : ℕ, getTerm y 2 = .ok s ∧ term2Of y = .ok ((s % 10 : ℕ) : ℤ) ∧
      (s % 10 = s ↔ s < 10) ∧ s < 10 := by
  have hk : (y - 1890).toNat < 211 := by omega
  have hck := termTwoFacts (y - 1890).toNat hk
  have hyk : (1890 : ℤ) + ((y - 1890).toNat : ℤ) = y := by omega
  unfold termTwoCheck at hck
  rw [hyk] at hck
  cases hg : getTerm y 2 with
  | exc e => rw [hg] at hck; simp at hck
  | ok s =>
    rw [hg] at hck
    rw [Bool.and_eq_true, decide_eq_true_eq, decide_eq_true_eq] at hck
    obtain ⟨hs10, ht2⟩ := hck
    have hmod : s % 10 = s := Nat.mod_eq_of_lt hs10
    exact ⟨s, rfl, by rw [hmod]; exact ht2, by omega, hs10⟩

/-- C10 witness: year 2000. -/
theorem C10_witness :
    ∃ s : ℕ, getTerm 2000 2 = .ok s ∧ term2Of 2000 = .ok ((s % 10 : ℕ) : ℤ) ∧
      (s % 10 = s ↔ s < 10) ∧ s < 10 :=
  C10_term2_parse 2000 (by decide) (by decide)

/-- C1: the claim's validation boundaries are the opposite of what the code
does.  On the spec-modelled table: `lunarToSolar(1890, 1, 1)` yields the
`OutOfRange` error value (the claim says it is valid), `solarToLunar(1890, 6,
1)` yields a structured success (the claim says `OutOfRange`); the neighbours
behave as the code's swapped bounds dictate: `lunarToSolar` accepts 1891 and
rejects 2101, `solarToLunar` rejects 1889 and 2101. -/
theorem C1_validation_boundary_swap :
    lunarToSolar synthTable 1890 1 1 = .ok (.outOfRange 100 "Year out of range") ∧
    stlIsRes (solarToLunar synthTable 1890 6 1) = true ∧
    isSolarOk (lunarToSolar synthTable 1891 1 1) = true ∧
    solarToLunar synthTable 1889 6 1 = .ok (.outOfRange 100 "Year out of range") ∧
    lunarToSolar synthTable 2101 1 1 = .ok (.outOfRange 100 "Year out of range") ∧
    solarToLunar synthTable 2101 6 1 = .ok (.outOfRange 100 "Year out of range") :=
  ⟨rfl, by decide, by decide, rfl, rfl, rfl⟩

/-- C2: counterexample to the round trip on the spec-modelled table.
`solarToLunar(1891, 1, 1)` (a valid solar date in `[minYear + 1, maxYear]`)
succeeds with lunar date 1890-12-21, but
`lunarToSolar(1890, 12, 21)` returns the `OutOfRange` error value rather
than the original date: the round trip fails for every January date of 1891
before the lunar New Year, because the code's `lunarToSolar` rejects
`minYear` itself. -/
theorem C2_roundtrip_failure :
    stlLunarYMD (solarToLunar synthTable 1891 1 1) = some (1890, 12, 21) ∧
    lunarToSolar synthTable 1890 12 21 = .ok (.outOfRange 100 "Year out of range") :=
  ⟨by decide, rfl⟩

/-- C6 counterexample: `solarToLunar` does *not* silently return a meaningless
success on an invalid solar day-of-month; February 30, 2000 raises an uncaught
`ValueError` from `datetime.date`, refuting the claim at this input. -/
theorem C6_counterexample :
    solarToLunar synthTable 2000 2 30 = .exc .valueError := by decide

/-- C6 (amended): for every year accepted by `lunarToSolar`'s range validation
and any 1-indexed lunar month 1..13 and day 1..30, `lunarToSolar` performs no
day-of-month validation and returns an arithmetically-derived success result
(on any spec-conforming table); `solarToLunar`, by contrast, raises an
uncaught `ValueError` when the solar month/day pair is not a valid Gregorian
date (see `C6_counterexample`). -/
theorem C6_no_day_validation (info : List (List ℕ)) (hw : wfTable info = true)
    (y m d : ℤ) (hy1 : 1891 ≤ y) (hy2 : y ≤ 2100)
    (hm1 : 1 ≤ m) (hm2 : m ≤ 13) (hd1 : 1 ≤ d) (hd2 : d ≤ 30) :
    isSolarOk (lunarToSolar info y m d) = true := by
  rw [wfTable, Bool.and_eq_true] at hw
  obtain ⟨hlenb, hall⟩ := hw
  have hlen : info.length = 211 := by simpa using hlenb
  rw [List.all_eq_true] at hall
  have hk : (y - 1890).toNat < 211 := by omega
  have hrc := hall (y - 1890).toNat (List.mem_range.mpr hk)
  rw [rowCheck, Bool.and_eq_true, Bool.and_eq_true, Bool.and_eq_true] at hrc
  obtain ⟨⟨⟨hr4b, hvdb⟩, hminb⟩, hmaxb⟩ := hrc
  have hr4 : (info.getD (y - 1890).toNat []).length = 4 := by simpa using hr4b
  obtain ⟨a, b, c, dd, hrowEq⟩ :
      ∃ a b c dd, info.getD (y - 1890).toNat [] = [a, b, c, dd] := by
    rcases hrw : info.getD (y - 1890).toNat [] with _ | ⟨a, _ | ⟨b, _ | ⟨c, _ | ⟨dd, _ | ⟨e, t⟩⟩⟩⟩⟩ <;>
      rw [hrw] at hr4 <;>
      first
        | exact ⟨_, _, _, _, rfl⟩
        | simp at hr4
  rw [hrowEq] at hvdb hminb hmaxb
  have hyk : (1890 : ℤ) + ((y - 1890).toNat : ℤ) = y := by omega
  rw [hyk] at hvdb hminb hmaxb
  have g1 : ([a, b, c, dd] : List ℕ).getD 1 0 = b := rfl
  have g2 : ([a, b, c, dd] : List ℕ).getD 2 0 = c := rfl
  rw [g1, g2] at hvdb hminb hmaxb
  have hvd : validDateB y (b : ℤ) (c : ℤ) = true := hvdb
  have hmin : minDateOrd ≤ daysFromCivil y.toNat b c := of_decide_eq_true hminb
  have hmax : daysFromCivil y.toNat b c + 419 ≤ maxDateOrd := of_decide_eq_true hmaxb
  have hidx : (y - 1890).toNat < info.length := by omega
  have hgd : info.getD (y - 1890).toNat [] = info.get ⟨(y - 1890).toNat, hidx⟩ := by
    rw [List.get_eq_getElem, List.getD_eq_getElem info [] hidx]
  have hrow : pyGet info (y - minYear) = .ok [a, b, c, dd] := by
    show pyGet info (y - 1890) = _
    rw [pyGet_ok info (y - 1890) (by omega) hidx, ← hgd, hrowEq]
  have h0 : pyGet ([a, b, c, dd] : List ℕ) 0 = Py.ok a := pyGet_ok _ _ (by omega) (by simp)
  have h1 : pyGet ([a, b, c, dd] : List ℕ) 1 = Py.ok b := pyGet_ok _ _ (by omega) (by simp)
  have h2 : pyGet ([a, b, c, dd] : List ℕ) 2 = Py.ok c := pyGet_ok _ _ (by omega) (by simp)
  have h3 : pyGet ([a, b, c, dd] : List ℕ) 3 = Py.ok dd := pyGet_ok _ _ (by omega) (by simp)
  have hyd : getLunarYearDays info y = .ok
      ⟨(((monthDataArrOf dd).take (if a ≠ 0 then 13 else 12)).map
          (fun bb => if bb = 0 then 29 else 30)).sum,
        ((monthDataArrOf dd).take (if a ≠ 0 then 13 else 12)).map
          (fun bb => if bb = 0 then 29 else 30)⟩ :=
    getLunarYearDays_eq info y [a, b, c, dd] a dd hrow h0 h3
  have hzh : getDaysBetweenZheng info y (m - 1) d = .ok
      ((sumBeforeMonth (((monthDataArrOf dd).take (if a ≠ 0 then 13 else 12)).map
          (fun bb => if bb = 0 then 29 else 30)) (m - 1) 0 : ℤ) + d - 1) :=
    getDaysBetweenZheng_eq info y (m - 1) d _ hyd
  have hsum390 : (((monthDataArrOf dd).take (if a ≠ 0 then 13 else 12)).map
      (fun bb => if bb = 0 then 29 else 30)).sum ≤ 390 :=
    monthDays_sum_le info y _ hyd
  have hsb : sumBeforeMonth (((monthDataArrOf dd).take (if a ≠ 0 then 13 else 12)).map
        (fun bb => if bb = 0 then 29 else 30)) (m - 1) 0
      ≤ (((monthDataArrOf dd).take (if a ≠ 0 then 13 else 12)).map
        (fun bb => if bb = 0 then 29 else 30)).sum :=
    sumBeforeMonth_le_sum _ _ _
  have hc : ¬ (y < (none : Option ℤ).getD (minYear + 1) ∨ maxYear < y) := by
    simp only [Option.getD_none, minYear, maxYear]
    omega
  have hfmt : formatDate y m d none = .ok y (m - 1) d := by
    unfold formatDate
    rw [if_neg hc]
  rw [lunarToSolar_eq info y m d y (m - 1) d hfmt]
  rw [hzh]
  simp only [ok_bind]
  rw [hrow]
  simp only [ok_bind]
  rw [h1]
  simp only [ok_bind]
  rw [h2]
  simp only [ok_bind]
  have hord : dateOrd y (b : ℤ) (c : ℤ) = .ok (daysFromCivil y.toNat b c) := by
    unfold dateOrd
    rw [if_pos hvd]
    simp
  rw [hord]
  simp only [ok_bind]
  have hoB : ordToDate ((daysFromCivil y.toNat b c : ℤ)
        + ((sumBeforeMonth (((monthDataArrOf dd).take (if a ≠ 0 then 13 else 12)).map
            (fun bb => if bb = 0 then 29 else 30)) (m - 1) 0 : ℤ) + d - 1))
      = .ok (civilFromDays ((daysFromCivil y.toNat b c : ℤ)
        + ((sumBeforeMonth (((monthDataArrOf dd).take (if a ≠ 0 then 13 else 12)).map
            (fun bb => if bb = 0 then 29 else 30)) (m - 1) 0 : ℤ) + d - 1)).toNat) := by
    unfold ordToDate
    rw [if_pos (And.intro (by omega) (by omega))]
  rw [hoB]
  simp only [ok_bind]
  rfl

/-- C6 witness: `lunarToSolar(2000, 2, 30)` (day 30 of a 29-day lunar month of
the spec-modelled table) returns a structured success result. -/
theorem C6_witness : isSolarOk (lunarToSolar synthTable 2000 2 30) = true :=
  C6_no_day_validation synthTable (by decide) 2000 2 30 (by decide) (by decide)
    (by decide) (by decide) (by decide) (by decide)

/-- C9: `solarToLunar` accepts year 1890 and, for every January day strictly
before the 1890 epoch (Jan 21 in the spec-modelled table), returns a
structured success whose `lunarYear` is 1889; the table lookup for 1889 uses
Python index `1889 - minYear = -1`, i.e. the record of year 2100, so the
returned lunar month/day coincide with `__getLunarDateByBetween` evaluated on
year 2100's record at the same negative offset. -/
theorem C9_negative_wraparound :
    pyGet synthTable ((1889 : ℤ) - minYear) = pyGet synthTable 210 ∧
    ∀ dn : ℕ, dn < 21 → 1 ≤ dn →
      stlIsRes (solarToLunar synthTable 1890 1 (dn : ℤ)) = true ∧
      stlLunarYMD (solarToLunar synthTable 1890 1 (dn : ℤ))
        = some (1889, (stlMonthDay (solarToLunar synthTable 1890 1 (dn : ℤ))).getD (0, 0)) ∧
      stlMonthDay (solarToLunar synthTable 1890 1 (dn : ℤ))
        = ldMonthDay (getLunarDateByBetween synthTable 2100 ((dn : ℤ) - 21)) :=
  ⟨rfl, by decide⟩

/-- C9 witness: January 5, 1890. -/
theorem C9_witness :
    stlIsRes (solarToLunar synthTable 1890 1 ((5 : ℕ) : ℤ)) = true ∧
    stlLunarYMD (solarToLunar synthTable 1890 1 ((5 : ℕ) : ℤ))
      = some (1889, (stlMonthDay (solarToLunar synthTable 1890 1 ((5 : ℕ) : ℤ))).getD (0, 0)) ∧
    stlMonthDay (solarToLunar synthTable 1890 1 ((5 : ℕ) : ℤ))
      = ldMonthDay (getLunarDateByBetween synthTable 2100 (((5 : ℕ) : ℤ) - 21)) :=
  C9_negative_wraparound.2 5 (by decide) (by decide)

end LunarCalendar
